import Mathlib

/-!
Shallow embedding of the connection-lifecycle and framed-data-channel core of
the repository (src/src/core/connector.py, src/src/core/data_handler.py,
src/src/core/bluetooth_manager.py).

Bytes are modelled as `List Nat` (each element a byte value); Python byte
strings are lists, Python `int` is `Nat`.  Python exceptions are modelled with
`Except PyErr`; a `try/except` block is a `match` on the body.  Python dicts
keyed by MAC-address strings are association lists with the usual dict
operations.  The platform transport (open / close / read / write), which the
code reaches only through stubbed primitives, is modelled as an explicit
oracle argument, and functions additionally return the number of times each
transport primitive was invoked so that claims about "no I/O" and "exactly N
attempts" are statable.
-/

/-- Python exception values that the modelled code can raise. -/
inductive PyErr where
  | indexError : PyErr
  | overflowError : PyErr
deriving DecidableEq, Repr

/-- Model of Python negative indexing `l[-1]`: raises IndexError on an empty
sequence, otherwise yields the last element. -/
def pyLast (l : List Nat) : Except PyErr Nat :=
  match l.getLast? with
  | none => Except.error PyErr.indexError
  | some b => Except.ok b

/-- Model of `int.to_bytes(4, "big")` for values below 2^32 (the caller side
checks the bound; Python raises OverflowError above it). -/
def toBytesBE4 (n : Nat) : List Nat :=
  [n / 16777216 % 256, n / 65536 % 256, n / 256 % 256, n % 256]

/-- Model of `int.from_bytes(bs, "big")`. -/
def fromBytesBE (bs : List Nat) : Nat :=
  bs.foldl (fun acc b => acc * 256 + b) 0

namespace DataHandler

/-- `DataHandler.calculate_checksum`: `sum(data) & 0xFF`. -/
def calculate_checksum (data : List Nat) : Nat :=
  data.sum % 256

/-- `DataHandler.pack_data`: optional 4-byte big-endian length, then the
payload, then an optional 1-byte checksum.  `len(data).to_bytes(4, "big")`
raises OverflowError when the payload length does not fit in 4 bytes, hence
the `Except`. -/
def pack_data (data : List Nat) (include_checksum include_length : Bool) :
    Except PyErr (List Nat) :=
  if include_length ∧ 4294967296 ≤ data.length then
    Except.error PyErr.overflowError
  else
    Except.ok
      ((if include_length then toBytesBE4 data.length else []) ++
        data ++
        (if include_checksum then [calculate_checksum data] else []))

/-- The `try` body of `DataHandler.unpack_data`.  `Except.ok none` is the
early `return None` (length check failed or checksum mismatch);
`Except.error` is an uncaught exception inside the body (only `packet[-1]`
on an empty packet can raise).  Python slices are translated exactly:
`packet[:4]` is `take 4`, `packet[offset:-1]` is
`(packet.take (packet.length - 1)).drop offset`, and
`packet[offset:offset+length]` is `(packet.drop offset).take length`. -/
def unpackBody (packet : List Nat) (has_checksum has_length : Bool) :
    Except PyErr (Option (List Nat)) :=
  if has_length ∧ packet.length < 4 then
    Except.ok none
  else
    let length := if has_length then fromBytesBE (packet.take 4) else packet.length
    let offset := if has_length then 4 else 0
    if has_checksum then
      match pyLast packet with
      | Except.error e => Except.error e
      | Except.ok checksum =>
        let data := (packet.take (packet.length - 1)).drop offset
        if calculate_checksum data ≠ checksum then
          Except.ok none
        else
          Except.ok (some data)
    else
      Except.ok (some ((packet.drop offset).take length))

/-- `DataHandler.unpack_data`: the `try` body wrapped in
`except Exception: return None`. -/
def unpack_data (packet : List Nat) (has_checksum has_length : Bool) :
    Option (List Nat) :=
  match unpackBody packet has_checksum has_length with
  | Except.ok r => r
  | Except.error _ => none

end DataHandler

/-! Python dict operations, for dicts keyed by MAC-address strings.
Modelled as association lists: `d[k] = v` replaces in place or appends,
`del d[k]` / `d.pop(k, None)` removes the key, `k in d` is membership. -/

/-- Lookup: `d.get(k)` / `d[k]`. -/
def dictLookup {α : Type} : List (String × α) → String → Option α
  | [], _ => none
  | (k₂, v) :: t, k => if k₂ = k then some v else dictLookup t k

/-- Assignment `d[k] = v`: replace the value of an existing key in place,
otherwise append the new binding. -/
def dictInsert {α : Type} : List (String × α) → String → α → List (String × α)
  | [], k, v => [(k, v)]
  | (k₂, v₂) :: t, k, v =>
    if k₂ = k then (k, v) :: t else (k₂, v₂) :: dictInsert t k v

/-- Key removal, as performed by `del d[k]` and `d.pop(k, None)`. -/
def dictRemove {α : Type} (d : List (String × α)) (k : String) : List (String × α) :=
  d.filter (fun p => p.1 ≠ k)

/-- `d.pop(k, None)`: the removed value (if any) together with the remaining
dict. -/
def dictPop {α : Type} (d : List (String × α)) (k : String) :
    Option α × List (String × α) :=
  (dictLookup d k, dictRemove d k)

namespace Connector

/-- The connection map `self._connections`; connection handles are opaque,
modelled as `Nat`. -/
abbrev ConnMap := List (String × Nat)

/-- One outcome of the platform open primitive `_do_connect`:
`Except.ok (some c)` is a successful open returning handle `c`,
`Except.ok none` is an explicit failure (the primitive returned `None`),
`Except.error` is a raised exception (caught by `connect`). -/
abbrev OpenOutcome := Except Unit (Option Nat)

/-- An open-primitive oracle: the outcome of the i-th `_do_connect` call. -/
abbrev OpenOracle := Nat → OpenOutcome

/-- `Connector.is_connected`: `device_mac in self._connections`. -/
def is_connected (st : ConnMap) (device_mac : String) : Bool :=
  (dictLookup st device_mac).isSome

/-- The retry loop of `Connector.connect`
(`for attempt in range(self._retry_count)`), started at attempt index
`attempt` with `remaining` iterations left.  Returns the handle obtained on
the first successful open (if any) and the number of open attempts
performed.  A raised exception is caught and treated like a failed attempt;
`time.sleep(self._retry_delay)` between attempts has no observable effect
here. -/
def connectLoop (oracle : OpenOracle) (attempt : Nat) :
    Nat → Option Nat × Nat
  | 0 => (none, 0)
  | remaining + 1 =>
    match oracle attempt with
    | Except.ok (some c) => (some c, 1)
    | Except.ok none =>
      let r := connectLoop oracle (attempt + 1) remaining
      (r.1, r.2 + 1)
    | Except.error _ =>
      let r := connectLoop oracle (attempt + 1) remaining
      (r.1, r.2 + 1)

/-- `Connector.connect`: early success when already connected, otherwise up
to `retry_count` open attempts, installing the connection on success.
Returns the boolean result, the new connection map, and the number of open
attempts performed. -/
def connect (st : ConnMap) (oracle : OpenOracle) (device_mac : String)
    (retry_count : Nat) : Bool × ConnMap × Nat :=
  if is_connected st device_mac then
    (true, st, 0)
  else
    match connectLoop oracle 0 retry_count with
    | (some c, k) => (true, dictInsert st device_mac c, k)
    | (none, k) => (false, st, k)

/-- `Connector._do_disconnect`: invokes the transport close primitive (whose
outcome is `closeResult`) inside its own `try/except`, so a close error is
logged and swallowed.  Returns the number of close-primitive invocations
paired with the raise status of `_do_disconnect` itself (always `ok`). -/
def do_disconnect (closeResult : Except Unit Unit) : Nat × Except Unit Unit :=
  match closeResult with
  | Except.ok _ => (1, Except.ok ())
  | Except.error _ => (1, Except.ok ())

/-- `Connector.disconnect`: `false` when not connected; otherwise pops the
map entry, closes via `_do_disconnect` (errors caught there), and returns
`true`.  The outer `except` arm (unreachable, since `_do_disconnect` never
raises) would return `false` with the entry already popped.  Returns the
boolean result, the new map, and the number of close-primitive calls. -/
def disconnect (st : ConnMap) (device_mac : String)
    (closeResult : Except Unit Unit) : Bool × ConnMap × Nat :=
  if is_connected st device_mac = false then
    (false, st, 0)
  else
    match dictPop st device_mac with
    | (some _, st₂) =>
      match do_disconnect closeResult with
      | (n, Except.ok _) => (true, st₂, n)
      | (n, Except.error _) => (false, st₂, n)
    | (none, st₂) => (true, st₂, 0)

end Connector

namespace DataHandler

/-- `DataHandler.send`: the transport write is an unimplemented TODO in the
source, so no transport I/O occurs; the data-sent observer callback is
invoked when set, and the function returns `True`.  Result: the boolean,
the number of transport writes, and the number of data-sent callback
invocations. -/
def send (device_mac : String) (data : List Nat) (callbackSet : Bool) :
    Bool × Nat × Nat :=
  (true, 0, if callbackSet then 1 else 0)

/-- Per-device listener bookkeeping: `self._receive_threads` and
`self._receive_queues`, keyed by MAC.  Thread handles and queue objects are
opaque here; the queue contents are reached only through the blocking
`queue.get`, modelled as an oracle in `receive`. -/
abbrev ListenMap := List (String × Unit)

/-- `DataHandler.receive`: when a receive queue exists for the device, one
blocking `queue.get(timeout=timeout)` is performed, whose outcome is the
oracle `getOutcome` (`none` models `queue.Empty` on timeout); on data the
data-received callback fires when set.  Without a queue the function
returns `None` at once (the direct-read branch is an unimplemented TODO).
Result: the received data, the number of blocking get calls, and the
number of data-received callback invocations. -/
def receive (queues : ListenMap) (device_mac : String) (size : Nat)
    (timeout : Nat) (callbackSet : Bool) (getOutcome : Option (List Nat)) :
    Option (List Nat) × Nat × Nat :=
  match dictLookup queues device_mac with
  | some _ =>
    match getOutcome with
    | some data => (some data, 1, if callbackSet then 1 else 0)
    | none => (none, 1, 0)
  | none => (none, 0, 0)

/-- `DataHandler.stop_listening`: deletes the device from both the thread
map and the queue map. -/
def stop_listening (threads : ListenMap) (queues : ListenMap)
    (device_mac : String) : ListenMap × ListenMap :=
  (dictRemove threads device_mac, dictRemove queues device_mac)

end DataHandler

namespace BluetoothManager

/-- `BluetoothManager.send_data`: refuses with `False` (and no transport
write, no callback) when the lifecycle manager reports the device as not
connected; otherwise delegates to `DataHandler.send`. -/
def send_data (st : Connector.ConnMap) (device_mac : String)
    (data : List Nat) (callbackSet : Bool) : Bool × Nat × Nat :=
  if Connector.is_connected st device_mac then
    DataHandler.send device_mac data callbackSet
  else
    (false, 0, 0)

end BluetoothManager

/-- A failed outcome of one open attempt: the primitive returned `None` or
raised (both are treated as a failed attempt by the retry loop). -/
def attemptFailed (r : Connector.OpenOutcome) : Prop :=
  r = Except.ok none ∨ r = Except.error ()

lemma length_toBytesBE4 (n : Nat) : (toBytesBE4 n).length = 4 := rfl

lemma fromBytesBE_toBytesBE4 {n : Nat} (h : n < 4294967296) :
    fromBytesBE (toBytesBE4 n) = n := by
  simp only [fromBytesBE, toBytesBE4, List.foldl]
  omega

lemma unpackBody_checksum_shape (a b : List Nat) (c : Nat) (ha : a.length = 4) :
    DataHandler.unpackBody (a ++ b ++ [c]) true true =
      if DataHandler.calculate_checksum b = c then Except.ok (some b)
      else Except.ok none := by
  have hlen : (a ++ b ++ [c]).length = b.length + 5 := by
    simp [ha]; omega
  unfold DataHandler.unpackBody pyLast
  rw [List.getLast?_concat]
  rw [if_neg (by rw [hlen]; omega)]
  have htake : (a ++ b ++ [c]).take ((a ++ b ++ [c]).length - 1) = a ++ b := by
    rw [hlen]
    exact List.take_left' (by simp [ha]; omega)
  rw [htake]
  by_cases hcs : DataHandler.calculate_checksum b = c <;>
    simp [List.drop_left' ha, hcs]

lemma unpackBody_checksum_nolen (b : List Nat) (c : Nat) :
    DataHandler.unpackBody (b ++ [c]) true false =
      if DataHandler.calculate_checksum b = c then Except.ok (some b)
      else Except.ok none := by
  unfold DataHandler.unpackBody pyLast
  rw [List.getLast?_concat]
  rw [if_neg (by simp)]
  have htake : (b ++ [c]).take ((b ++ [c]).length - 1) = b := by
    simp
  rw [htake]
  by_cases hcs : DataHandler.calculate_checksum b = c <;> simp [hcs]

lemma unpackBody_length_only (b : List Nat) (hb : b.length < 4294967296) :
    DataHandler.unpackBody (toBytesBE4 b.length ++ b) false true =
      Except.ok (some b) := by
  unfold DataHandler.unpackBody
  rw [if_neg (by simp [length_toBytesBE4])]
  have htake : (toBytesBE4 b.length ++ b).take 4 = toBytesBE4 b.length :=
    List.take_left' (length_toBytesBE4 _)
  simp [htake, fromBytesBE_toBytesBE4 hb, List.drop_left' (length_toBytesBE4 _)]

lemma unpackBody_plain (b : List Nat) :
    DataHandler.unpackBody b false false = Except.ok (some b) := by
  unfold DataHandler.unpackBody
  simp

/-- Claim C1: for every payload and every combination of the two flags,
unpacking the result of packing the payload with those flags returns the
payload. -/
theorem pack_unpack_roundtrip (data : List Nat) (include_checksum include_length : Bool)
    (pkt : List Nat)
    (hp : DataHandler.pack_data data include_checksum include_length = Except.ok pkt) :
    DataHandler.unpack_data pkt include_checksum include_length = some data := by
  unfold DataHandler.pack_data at hp
  by_cases hov : (include_length = true) ∧ 4294967296 ≤ data.length
  · rw [if_pos hov] at hp
    exact absurd hp (by simp)
  · rw [if_neg hov] at hp
    have hpkt := Except.ok.inj hp
    subst hpkt
    cases include_length <;> cases include_checksum
    · simp only [Bool.false_eq_true, if_false, List.nil_append, List.append_nil]
      unfold DataHandler.unpack_data
      rw [unpackBody_plain]
    · simp only [Bool.false_eq_true, if_false, if_true, List.nil_append]
      unfold DataHandler.unpack_data
      rw [unpackBody_checksum_nolen]
      simp
    · have hlt : data.length < 4294967296 := by
        simp only [true_and] at hov
        omega
      simp only [if_true, Bool.false_eq_true, if_false, List.append_nil]
      unfold DataHandler.unpack_data
      rw [unpackBody_length_only data hlt]
    · simp only [if_true]
      unfold DataHandler.unpack_data
      rw [unpackBody_checksum_shape _ _ _ (length_toBytesBE4 _)]
      simp

/-- Witness for C1 at payload [10, 20] with both flags set. -/
theorem pack_unpack_roundtrip_witness :
    DataHandler.unpack_data [0, 0, 0, 2, 10, 20, 30] true true = some [10, 20] :=
  pack_unpack_roundtrip [10, 20] true true [0, 0, 0, 2, 10, 20, 30] rfl

/-- Claim C2 evaluated at the failing input: the 4-byte frame 00 00 00 00
with has_length and has_checksum both set is accepted by unpack_data and
yields the empty payload, although the declared fixed fields (4-byte length
plus 1 trailing checksum byte) need at least 5 bytes and the spec demands
rejection of shorter frames.  The length check counts only the 4 length
bytes, so the final length byte doubles as the checksum byte. -/
theorem unpack_accepts_four_byte_frame :
    DataHandler.unpack_data [0, 0, 0, 0] true true = some [] := by decide

/-- Claim C3: replacing the trailing checksum byte of a packed frame with
any byte B different from checksum8 of the payload makes unpack_data return
None, with has_checksum set and has_length of either value (pack and unpack
using the same flags). -/
theorem checksum_mismatch_rejected (P : List Nat) (B : Nat) (has_length : Bool)
    (pkt : List Nat)
    (hp : DataHandler.pack_data P true has_length = Except.ok pkt)
    (hB : B ≠ DataHandler.calculate_checksum P) :
    DataHandler.unpack_data (pkt.dropLast ++ [B]) true has_length = none := by
  unfold DataHandler.pack_data at hp
  cases has_length
  · rw [if_neg (by simp)] at hp
    have hpkt := Except.ok.inj hp
    subst hpkt
    simp only [Bool.false_eq_true, if_false, if_true, List.nil_append]
    rw [List.dropLast_concat]
    unfold DataHandler.unpack_data
    rw [unpackBody_checksum_nolen, if_neg (Ne.symm hB)]
  · by_cases hov : 4294967296 ≤ P.length
    · rw [if_pos (by simp [hov])] at hp
      exact absurd hp (by simp)
    · rw [if_neg (by simp [hov])] at hp
      have hpkt := Except.ok.inj hp
      subst hpkt
      simp only [if_true]
      rw [List.dropLast_concat]
      unfold DataHandler.unpack_data
      rw [unpackBody_checksum_shape _ _ _ (length_toBytesBE4 _),
        if_neg (Ne.symm hB)]

/-- Witness for C3: frame for payload [10, 20] with checksum byte 30
replaced by 99. -/
theorem checksum_mismatch_rejected_witness :
    DataHandler.unpack_data [0, 0, 0, 2, 10, 20, 99] true true = none :=
  checksum_mismatch_rejected [10, 20] 99 true [0, 0, 0, 2, 10, 20, 30] rfl (by decide)

/-- Claim C4: unpack_data always returns normally, with either a payload
(produced by a normal, exception-free run of the body) or None; every
exception raised inside the body is caught, so none propagates. -/
theorem unpack_data_no_uncaught (packet : List Nat) (has_checksum has_length : Bool) :
    (∃ d, DataHandler.unpack_data packet has_checksum has_length = some d ∧
        DataHandler.unpackBody packet has_checksum has_length = Except.ok (some d)) ∨
    DataHandler.unpack_data packet has_checksum has_length = none := by
  unfold DataHandler.unpack_data
  cases h : DataHandler.unpackBody packet has_checksum has_length with
  | ok r =>
    cases r with
    | some d => exact Or.inl ⟨d, rfl, rfl⟩
    | none => exact Or.inr rfl
  | error e => exact Or.inr rfl

/-- Claim C10: with both flags set, unpack_data never validates the
declared 4-byte length against the payload: for any packet holding the
4-byte field, it returns the slice packet[4 : len(packet)-1] whenever the
checksum of that slice equals the trailing byte, whatever the declared
length says. -/
theorem unpack_ignores_declared_length (packet : List Nat) (c : Nat)
    (h4 : 4 ≤ packet.length)
    (hlast : packet.getLast? = some c)
    (hcs : DataHandler.calculate_checksum
        ((packet.take (packet.length - 1)).drop 4) = c) :
    DataHandler.unpack_data packet true true =
      some ((packet.take (packet.length - 1)).drop 4) := by
  unfold DataHandler.unpack_data DataHandler.unpackBody pyLast
  rw [hlast]
  rw [if_neg (by omega)]
  simp [hcs]

/-- Witness for C10: the declared length is 4294967295, the actual payload
is the single byte 65, and unpack_data still returns it. -/
theorem unpack_ignores_declared_length_witness :
    DataHandler.unpack_data [255, 255, 255, 255, 65, 65] true true = some [65] :=
  unpack_ignores_declared_length [255, 255, 255, 255, 65, 65] 65
    (by decide) (by decide) (by decide)


lemma dictLookup_remove_self {α : Type} (d : List (String × α)) (k : String) :
    dictLookup (dictRemove d k) k = none := by
  induction d with
  | nil => rfl
  | cons p t ih =>
    by_cases hp : p.1 = k
    · simpa [dictRemove, List.filter, hp] using ih
    · simpa [dictRemove, List.filter, hp, dictLookup] using ih

/-- Claim C5: with retry_count 3 and an unconnected identifier, if the open
primitive fails on the first two attempts and succeeds on the third, connect
performs exactly 3 open attempts, returns true and installs the connection;
if every attempt fails, connect performs exactly 3 open attempts, returns
false and leaves the connection map unchanged (the per-attempt catch means
no exception reaches the caller). -/
theorem connect_retry_behavior (st : Connector.ConnMap)
    (oracle : Connector.OpenOracle) (device_mac : String)
    (h : Connector.is_connected st device_mac = false) :
    (∀ c : Nat, attemptFailed (oracle 0) → attemptFailed (oracle 1) →
      oracle 2 = Except.ok (some c) →
      Connector.connect st oracle device_mac 3 =
        (true, dictInsert st device_mac c, 3)) ∧
    ((∀ i, i < 3 → attemptFailed (oracle i)) →
      Connector.connect st oracle device_mac 3 = (false, st, 3)) := by
  constructor
  · intro c h0 h1 h2
    unfold Connector.connect
    rw [h]
    have : Connector.connectLoop oracle 0 3 = (some c, 3) := by
      rcases h0 with h0 | h0 <;> rcases h1 with h1 | h1 <;>
        simp [Connector.connectLoop, h0, h1, h2]
    simp [this]
  · intro hf
    unfold Connector.connect
    rw [h]
    have : Connector.connectLoop oracle 0 3 = (none, 3) := by
      rcases hf 0 (by omega) with h0 | h0 <;>
        rcases hf 1 (by omega) with h1 | h1 <;>
          rcases hf 2 (by omega) with h2 | h2 <;>
            simp [Connector.connectLoop, h0, h1, h2]
    simp [this]

/-- Witness for C5: a concrete oracle failing twice then succeeding with
handle 7, and a concrete always-raising oracle. -/
theorem connect_retry_behavior_witness :
    Connector.connect []
        (fun i => if i = 2 then Except.ok (some 7) else Except.ok none) "AA" 3 =
      (true, [("AA", 7)], 3) ∧
    Connector.connect [] (fun _ => Except.error ()) "BB" 3 = (false, [], 3) := by
  constructor
  · exact (connect_retry_behavior []
      (fun i => if i = 2 then Except.ok (some 7) else Except.ok none) "AA" rfl).1
      7 (Or.inl rfl) (Or.inl rfl) rfl
  · exact (connect_retry_behavior [] (fun _ => Except.error ()) "BB" rfl).2
      (fun _ _ => Or.inr rfl)

/-- Claim C6: connect on an already connected identifier returns true
immediately, performs zero open attempts and leaves the connection map
unchanged. -/
theorem connect_idempotent (st : Connector.ConnMap)
    (oracle : Connector.OpenOracle) (device_mac : String) (retry_count : Nat)
    (h : Connector.is_connected st device_mac = true) :
    Connector.connect st oracle device_mac retry_count = (true, st, 0) := by
  unfold Connector.connect
  rw [h]
  simp

/-- Witness for C6 on a map already holding the identifier. -/
theorem connect_idempotent_witness :
    Connector.connect [("AA", 5)] (fun _ => Except.ok (some 7)) "AA" 3 =
      (true, [("AA", 5)], 0) :=
  connect_idempotent [("AA", 5)] (fun _ => Except.ok (some 7)) "AA" 3 rfl

/-- Claim C9: disconnect on a connected identifier removes the map entry
and returns true with exactly one close-primitive call, for both outcomes of
the close primitive (its error is swallowed, never propagated); on an
unconnected identifier it returns false with zero transport calls. -/
theorem disconnect_spec (st : Connector.ConnMap) (device_mac : String)
    (closeResult : Except Unit Unit) :
    (Connector.is_connected st device_mac = true →
      Connector.disconnect st device_mac closeResult =
        (true, dictRemove st device_mac, 1) ∧
      dictLookup (dictRemove st device_mac) device_mac = none) ∧
    (Connector.is_connected st device_mac = false →
      Connector.disconnect st device_mac closeResult = (false, st, 0)) := by
  constructor
  · intro h
    refine ⟨?_, dictLookup_remove_self st device_mac⟩
    unfold Connector.disconnect
    rw [if_neg (by simp [h])]
    obtain ⟨c, hc⟩ := Option.isSome_iff_exists.mp h
    cases closeResult <;> simp [dictPop, hc, Connector.do_disconnect]
  · intro h
    unfold Connector.disconnect
    rw [if_pos h]

/-- Witness for C9: a raising close primitive on a connected identifier,
and a disconnect of an unknown identifier. -/
theorem disconnect_spec_witness :
    (Connector.disconnect [("AA", 5)] "AA" (Except.error ()) = (true, [], 1) ∧
      dictLookup (dictRemove [("AA", 5)] "AA") "AA" = none) ∧
    Connector.disconnect [] "CC" (Except.ok ()) = (false, [], 0) :=
  ⟨(disconnect_spec [("AA", 5)] "AA" (Except.error ())).1 rfl,
    (disconnect_spec [] "CC" (Except.ok ())).2 rfl⟩

/-- Claim C7: send_data on an unconnected identifier returns false,
performs zero transport writes and zero data-sent callback invocations. -/
theorem send_data_not_connected (st : Connector.ConnMap) (device_mac : String)
    (data : List Nat) (callbackSet : Bool)
    (h : Connector.is_connected st device_mac = false) :
    BluetoothManager.send_data st device_mac data callbackSet = (false, 0, 0) := by
  simp [BluetoothManager.send_data, h]

/-- Witness for C7 on the empty connection map. -/
theorem send_data_not_connected_witness :
    BluetoothManager.send_data [] "AA" [1, 2] true = (false, 0, 0) :=
  send_data_not_connected [] "AA" [1, 2] true rfl

/-- Claim C8: receive for a device with no receive queue returns None with
zero blocking queue reads and zero data-received callback invocations; in
particular this holds for the queue map produced by stop_listening. -/
theorem receive_no_listener :
    (∀ (queues : DataHandler.ListenMap) (device_mac : String)
        (size timeout : Nat) (callbackSet : Bool)
        (getOutcome : Option (List Nat)),
      dictLookup queues device_mac = none →
      DataHandler.receive queues device_mac size timeout callbackSet getOutcome =
        (none, 0, 0)) ∧
    (∀ (threads queues : DataHandler.ListenMap) (device_mac : String)
        (size timeout : Nat) (callbackSet : Bool)
        (getOutcome : Option (List Nat)),
      DataHandler.receive
          (DataHandler.stop_listening threads queues device_mac).2
          device_mac size timeout callbackSet getOutcome = (none, 0, 0)) := by
  constructor
  · intro queues device_mac size timeout callbackSet getOutcome h
    simp [DataHandler.receive, h]
  · intro threads queues device_mac size timeout callbackSet getOutcome
    simp [DataHandler.receive, DataHandler.stop_listening, dictLookup_remove_self]

/-- Witness for C8: an empty queue map, and the map left by stop_listening
for the listened device. -/
theorem receive_no_listener_witness :
    DataHandler.receive [] "AA" 1024 5 true (some [9]) = (none, 0, 0) ∧
    DataHandler.receive
        (DataHandler.stop_listening [("AA", ())] [("AA", ())] "AA").2
        "AA" 1024 5 true (some [9]) = (none, 0, 0) :=
  ⟨receive_no_listener.1 [] "AA" 1024 5 true (some [9]) rfl,
    receive_no_listener.2 [("AA", ())] [("AA", ())] "AA" 1024 5 true (some [9])⟩
